import Mathlib

/-!
Shallow embedding of `django-bigquery-exporter` (`bigquery_exporter/base.py`,
`bigquery_exporter/helpers.py`, `bigquery_exporter/constants.py`) together with
proofs checking the natural-language specification against the code.

Python values flowing through the exporter are modelled by the inductive
`Value`; `datetime.datetime` objects by `Datetime` (civil fields plus an
optional fixed UTC offset in minutes, `none` = timezone-naive); Django
querysets by `Queryset` (the materialised ordered row list plus the
`ordered` flag); the BigQuery client is an external collaborator and is
passed in as a function (`sink`).
-/

namespace BQExporter

/-- Model of a Python `datetime.datetime`: civil fields and, when the value is
timezone-aware, its fixed UTC offset in minutes (`pytz.UTC` ⇒ `some 0`).
`none` models a naive datetime. -/
structure Datetime where
  year : Nat
  month : Nat
  day : Nat
  hour : Nat
  minute : Nat
  second : Nat
  tzOffsetMinutes : Option Int
  deriving DecidableEq

/-- Days since 1970-01-01 of a civil date (Howard Hinnant's `days_from_civil`,
the standard model of proleptic-Gregorian date arithmetic used by Python's
`datetime`). Valid for `year ≥ 1`. -/
def daysFromCivil (y m d : Nat) : Int :=
  let y' := if m ≤ 2 then y - 1 else y
  let era := y' / 400
  let yoe := y' - era * 400
  let mp := if 2 < m then m - 3 else m + 9
  let doy := (153 * mp + 2) / 5 + d - 1
  let doe := yoe * 365 + yoe / 4 - yoe / 100 + doy
  (era * 146097 + doe : Int) - 719468

/-- Civil date of a day count since 1970-01-01 (Hinnant's `civil_from_days`,
non-negative day counts). -/
def civilFromDays (z : Nat) : Nat × Nat × Nat :=
  let z' := z + 719468
  let era := z' / 146097
  let doe := z' - era * 146097
  let yoe := (doe - doe / 1460 + doe / 36524 - doe / 146096) / 365
  let y := yoe + era * 400
  let doy := doe - (365 * yoe + yoe / 4 - yoe / 100)
  let mp := (5 * doy + 2) / 153
  let d := doy - (153 * mp + 2) / 5 + 1
  let m := if mp < 10 then mp + 3 else mp - 9
  (if m ≤ 2 then y + 1 else y, m, d)

/-- Seconds since the epoch of a `Datetime`, interpreting a naive value as UTC
(timezone offset subtracted for aware values, as in `datetime.timestamp`). -/
def toEpochSeconds (dt : Datetime) : Int :=
  daysFromCivil dt.year dt.month dt.day * 86400
    + dt.hour * 3600 + dt.minute * 60 + dt.second
    - (match dt.tzOffsetMinutes with
       | some o => o * 60
       | none => 0)

/-- The UTC `Datetime` of an epoch-second count (valid for post-1970 instants,
which covers every value this exporter stamps). -/
def datetimeFromEpochSecondsUTC (s : Int) : Datetime :=
  let sn := s.toNat
  let days := sn / 86400
  let rem := sn % 86400
  let c := civilFromDays days
  ⟨c.1, c.2.1, c.2.2, rem / 3600, rem % 3600 / 60, rem % 60, some 0⟩

/-- Python `value.astimezone(pytz.UTC)` for an aware `value`: same instant,
UTC civil fields. -/
def astimezoneUTC (dt : Datetime) : Datetime :=
  datetimeFromEpochSecondsUTC (toEpochSeconds dt)

/-- Zero-padded two-digit decimal rendering (`%m`, `%d`, `%H`, `%M`, `%S`). -/
def pad2 (n : Nat) : String :=
  if n < 10 then ("0" ++ toString n) else toString n

/-- Zero-padded four-digit decimal rendering (`%Y`). -/
def pad4 (n : Nat) : String :=
  if n < 10 then ("000" ++ toString n)
  else if n < 100 then ("00" ++ toString n)
  else if n < 1000 then ("0" ++ toString n)
  else toString n

/-- `strftime('%Y-%m-%d %H:%M:%S')` on a `Datetime` (the offset is not
rendered by this format). -/
def strftimeYmdHMS (dt : Datetime) : String :=
  pad4 dt.year ++ "-" ++ pad2 dt.month ++ "-" ++ pad2 dt.day ++ " "
    ++ pad2 dt.hour ++ ":" ++ pad2 dt.minute ++ ":" ++ pad2 dt.second

/-- `helpers.handle_datetime_value`: an aware value is converted to UTC with
`astimezone(pytz.UTC)`, a naive value is localised as already-UTC without
shifting (`pytz.UTC.localize`), then the result is formatted. -/
def handle_datetime_value (value : Datetime) : String :=
  let utc_value :=
    match value.tzOffsetMinutes with
    | some _ => astimezoneUTC value
    | none => { value with tzOffsetMinutes := some 0 }
  strftimeYmdHMS utc_value

/-- Model of the Python values the exporter's sanitizer dispatches on.  The
only dict literal occurring in the sources is the empty dict (the `RECORD`
default in `constants.py`), modelled by `vEmptyDict`. -/
inductive Value where
  | vNull
  | vBool (b : Bool)
  | vInt (n : Int)
  | vFloat (q : Rat)
  | vStr (s : String)
  | vBytes (bs : List Nat)
  | vEmptyDict
  | vDatetime (dt : Datetime)
  | vUUID (s : String)
  deriving DecidableEq

/-- `constants.BQ_TYPE_DEFAULTS`: the per-column-type defaults declared for
null replacement, as an association list mirroring the Python dict. -/
def BQ_TYPE_DEFAULTS : List (String × Value) :=
  [("STRING", Value.vStr ("")),
   ("INTEGER", Value.vInt 0),
   ("FLOAT", Value.vFloat 0),
   ("NUMERIC", Value.vFloat 0),
   ("BOOLEAN", Value.vBool false),
   ("TIMESTAMP", Value.vStr ("")),
   ("DATE", Value.vStr ("")),
   ("TIME", Value.vStr ("")),
   ("DATETIME", Value.vStr ("")),
   ("RECORD", Value.vEmptyDict),
   ("BYTES", Value.vBytes []),
   ("JSON", Value.vStr ("\x7b\x7d"))]

/-- Dict lookup on `BQ_TYPE_DEFAULTS` (Python `dict.get`). -/
def bqTypeDefault (t : String) : Option Value :=
  (BQ_TYPE_DEFAULTS.find? (fun p => p.1 = t)).map Prod.snd

/-- `BigQueryExporter._sanitize_value` as written in `base.py`.  The datetime
branch of the source executes `handle_datetime_value(value)` but does not
return its result, so the method falls off the end and yields Python `None`;
the null branch yields `''` when `replace_nulls_with_empty` is set and `None`
otherwise; UUIDs are stringified; everything else passes through. -/
def sanitize_value (replace_nulls_with_empty : Bool) : Value → Value
  | Value.vDatetime _ => Value.vNull
  | Value.vUUID u => Value.vStr u
  | Value.vNull => if replace_nulls_with_empty then Value.vStr ("") else Value.vNull
  | v => v

/-- Iteration core of Python `range(·, stop, step)` for positive `step`: the
`fuel` argument only bounds the recursion depth (`stop - start` suffices,
since every iteration advances `start` by `step ≥ 1`); it never changes the
produced list, as `pyRange_eq_range'` below proves. -/
def pyRangeGo (stop step : Nat) : Nat → Nat → List Nat
  | _, 0 => []
  | start, fuel + 1 =>
    if start < stop then start :: pyRangeGo stop step (start + step) fuel else []

/-- Python `range(start, stop, step)` for a non-negative `step` (the shape
used at `base.py:54`); empty when `step = 0` or `stop ≤ start`. -/
def pyRange (start stop step : Nat) : List Nat :=
  if 0 < step then pyRangeGo stop step start (stop - start) else []

/-- Ceiling division on `Nat`, the count `range(0, total, b)` produces. -/
def ceilDiv (n b : Nat) : Nat := (n + b - 1) / b

/-- One `(start, end, total, qs[start:end])` tuple yielded by `batch_qs`
(`end` is a Lean keyword, hence `stop`). -/
structure Batch (α : Type) where
  start : Nat
  stop : Nat
  total : Nat
  slice : List α
  deriving DecidableEq

/-- `base.batch_qs`: `total = qs.count()`; with `batch_size=None` a single
`(0, total, total, qs)` tuple is yielded (the source passed through whole,
even when it is empty); otherwise one tuple per `start in range(0, total,
batch_size)` with `end = min(start + batch_size, total)` and the slice
`qs[start:end]`. -/
def batch_qs (l : List α) (batch_size : Option Nat) : List (Batch α) :=
  let total := l.length
  match batch_size with
  | none => [⟨0, total, total, l⟩]
  | some b =>
    (pyRange 0 total b).map (fun start =>
      let stop := min (start + b) total
      ⟨start, stop, total, (l.drop start).take (stop - start)⟩)

/-- Exporter class configuration (`fields`, `batch`, `replace_nulls_with_empty`,
`include_pull_date`, `pull_date_field_name` class attributes). -/
structure ExporterCfg where
  fields : List String
  batch : Option Nat
  replace_nulls_with_empty : Bool
  include_pull_date : Bool
  pull_date_field_name : String

/-- How a declared field name resolves on the exporter: a method decorated
with `@custom_field` (invoked on the record, result returned raw), or a model
attribute read off the record (then sanitized). -/
inductive FieldBinding (α : Type) where
  | custom (f : α → Value)
  | attr (f : α → Value)

/-- A processed row: the flat field-name-to-sanitized-value mapping built per
record (a Python dict in insertion order). -/
def Row : Type := List (String × Value)

/-- One element of the list `client.insert_rows` returns: the failing row's
index within the pushed batch plus an opaque error payload. -/
structure RowError where
  index : Nat
  errors : String
  deriving DecidableEq

/-- `BigQueryExporter._process_field`: a registered custom field is called on
the instance and its result returned unsanitized; otherwise the model
attribute is read and sanitized. -/
def process_field (replace_nulls_with_empty : Bool) (resolve : String → FieldBinding α)
    (model_instance : α) (field : String) : Value :=
  match resolve field with
  | FieldBinding.custom f => f model_instance
  | FieldBinding.attr f => sanitize_value replace_nulls_with_empty (f model_instance)

/-- `BigQueryExporter._process_queryset`: one dict per instance, starting with
the sanitized pull date under `pull_date_field_name` when `include_pull_date`
is set, followed by every declared field in order. -/
def process_queryset (cfg : ExporterCfg) (resolve : String → FieldBinding α)
    (queryset : List α) (pull_datetime : Datetime) : List Row :=
  queryset.map (fun model_instance =>
    (if cfg.include_pull_date then
      [(cfg.pull_date_field_name,
        sanitize_value cfg.replace_nulls_with_empty (Value.vDatetime pull_datetime))]
     else [])
    ++ cfg.fields.map (fun field =>
        (field, process_field cfg.replace_nulls_with_empty resolve model_instance field)))

/-- The `retry_deadline=600` default of `_push_to_bigquery` (seconds). -/
def defaultRetryDeadline : Nat := 600

/-- `BigQueryExporter._push_to_bigquery`: calls
`client.insert_rows(table, data, retry=Retry(deadline=retry_deadline))`; a
truthy error list is returned, an empty one turns into Python `None`, and
`GoogleAPICallError` / `RetryError` is logged and re-raised (`Except.error`).
The client is the external collaborator `sink`, taking the retry deadline and
the rows. -/
def push_to_bigquery (sink : Nat → List Row → Except ε (List RowError))
    (data : List Row) (retry_deadline : Nat) : Except ε (Option (List RowError)) :=
  match sink retry_deadline data with
  | Except.error e => Except.error e
  | Except.ok errors => if errors.isEmpty then Except.ok none else Except.ok (some errors)

/-- `_push_to_bigquery` as called from `export` (no explicit deadline, so the
`retry_deadline=600` default applies). -/
def push_to_bigquery_default (sink : Nat → List Row → Except ε (List RowError))
    (data : List Row) : Except ε (Option (List RowError)) :=
  push_to_bigquery sink data defaultRetryDeadline

/-- The `for start, end, total, qs in batch_qs(...)` loop of
`BigQueryExporter.export` (`base.py:149-156`): each batch is processed; a
non-empty processed batch is pushed; per-row errors have their `index` shifted
by the batch `start` and are appended to the running `errors` list; a raised
transport error aborts the loop. -/
def exportLoop (cfg : ExporterCfg) (resolve : String → FieldBinding α)
    (sink : Nat → List Row → Except ε (List RowError)) (pull_datetime : Datetime) :
    List (Batch α) → List RowError → Except ε (List RowError)
  | [], errors => Except.ok errors
  | b :: rest, errors =>
    let reporting_data := process_queryset cfg resolve b.slice pull_datetime
    if reporting_data.isEmpty then
      exportLoop cfg resolve sink pull_datetime rest errors
    else
      match push_to_bigquery_default sink reporting_data with
      | Except.error e => Except.error e
      | Except.ok none => exportLoop cfg resolve sink pull_datetime rest errors
      | Except.ok (some batch_errors) =>
        exportLoop cfg resolve sink pull_datetime rest
          (errors ++ batch_errors.map (fun r => ⟨r.index + b.start, r.errors⟩))

/-- A Django queryset: its rows (in query order) and its `ordered` flag. -/
structure Queryset (α : Type) where
  items : List α
  ordered : Bool

/-- The `pull_date` argument of `export`: absent (`None`), a datetime, or a
value of some other Python type together with its truthiness (datetimes are
always truthy in Python 3). -/
inductive PullDateArg where
  | none
  | dt (d : Datetime)
  | other (truthy : Bool) (typeName : String)

/-- The `queryset` argument of `export`: absent (`None`), a `QuerySet`
instance, or a value of some other Python type with its truthiness. -/
inductive QuerysetArg (α : Type) where
  | none
  | qs (q : Queryset α)
  | other (truthy : Bool) (typeName : String)

/-- Python truthiness of the `pull_date` argument (`None` is falsy, a
`datetime` is always truthy). -/
def PullDateArg.truthy : PullDateArg → Bool
  | PullDateArg.none => false
  | PullDateArg.dt _ => true
  | PullDateArg.other t _ => t

/-- Python truthiness of the `queryset` argument (`None` is falsy, a
`QuerySet` is truthy iff it has rows). -/
def QuerysetArg.truthy : QuerysetArg α → Bool
  | QuerysetArg.none => false
  | QuerysetArg.qs q => !q.items.isEmpty
  | QuerysetArg.other t _ => t

/-- The exceptions `export` can surface: `TypeError` / `ValueError` raised by
its argument validation, or a re-raised transport error from the sink. -/
inductive ExportError (ε : Type) where
  | typeError (msg : String)
  | valueError (msg : String)
  | transport (e : ε)
  deriving DecidableEq

/-- `BigQueryExporter.export` (`base.py:109-162`).  In source order: the
falsy-`pull_date` / falsy-`queryset` defaulting (`base.py:130-131`, the
default queryset being `define_queryset()`), the `pull_date` type check, the
`queryset` type check, the unordered-oversized-queryset check, then the batch
loop.  `now` stands for `datetime.datetime.now()`; when validation raises, the
computed `pull_datetime` is never consulted, so it is only materialised for
the datetime case.  (`export` is a Lean keyword, hence the prime.) -/
def export' (cfg : ExporterCfg) (defaultQs : Queryset α)
    (resolve : String → FieldBinding α) (now : Datetime)
    (sink : Nat → List Row → Except ε (List RowError))
    (pull_date : PullDateArg) (queryset : QuerysetArg α) :
    Except (ExportError ε) (List RowError) :=
  let pull_datetime := match pull_date with
    | PullDateArg.dt d => d
    | _ => now
  let qv := if queryset.truthy then queryset else QuerysetArg.qs defaultQs
  match pull_date with
  | PullDateArg.other _ ty =>
    Except.error (ExportError.typeError
      ("Expected a datetime.datetime object for pull_date, but got " ++ ty ++ " instead."))
  | _ =>
    match qv with
    | QuerysetArg.qs q =>
      if (match cfg.batch with
          | some b => decide (b < q.items.length) && !q.ordered
          | none => false) then
        Except.error (ExportError.valueError
          ("Queryset must be ordered (using .order_by()) when batch size is smaller than queryset size."))
      else
        match exportLoop cfg resolve sink pull_datetime (batch_qs q.items cfg.batch) [] with
        | Except.error e => Except.error (ExportError.transport e)
        | Except.ok errors => Except.ok errors
    | QuerysetArg.other _ ty =>
      Except.error (ExportError.typeError
        ("Expected a Django QuerySet, but got " ++ ty ++ " instead."))
    | QuerysetArg.none =>
      Except.error (ExportError.typeError
        ("Expected a Django QuerySet, but got NoneType instead."))

/-- The validation-error type of `_validate_fields_against_table`
(`BigQueryExporterValidationError`), carrying the offending field name. -/
inductive ValidationError where
  | fieldNotInTable (field : String)
  deriving DecidableEq

/-- First declared field missing from the table's column names, in declaration
order (the field the source's `for` loop raises on). -/
def firstNotInTable (fields table_fields : List String) : Option String :=
  match fields with
  | [] => none
  | f :: rest =>
    if f ∈ table_fields then firstNotInTable rest table_fields else some f

/-- `BigQueryExporter._validate_fields_against_table`: iterates `self.fields`
against `[field.name for field in self.table.schema]` and raises on the first
field not present.  The pull-date configuration is part of the exporter state
but, as in the source, never consulted here. -/
def validate_fields_against_table (cfg : ExporterCfg) (table_fields : List String) :
    Except ValidationError Unit :=
  match firstNotInTable cfg.fields table_fields with
  | some f => Except.error (ValidationError.fieldNotInTable f)
  | none => Except.ok ()

/-- The batch tuple `batch_qs` yields for a given `start` (proof-layer
abbreviation of the body of the loop at `base.py:54-56`). -/
def batchOf (l : List α) (b start : Nat) : Batch α :=
  ⟨start, min (start + b) l.length, l.length,
    (l.drop start).take (min (start + b) l.length - start)⟩

/-! ### Helper lemmas about the batcher -/

theorem ceilDiv_eq_zero_iff (b : Nat) (hb : 0 < b) (n : Nat) :
    ceilDiv n b = 0 ↔ n = 0 := by
  unfold ceilDiv
  constructor
  · intro h
    by_contra hn
    have h1 : 0 < n := Nat.pos_of_ne_zero hn
    have h2 : b ≤ n + b - 1 := by omega
    have := (Nat.le_div_iff_mul_le hb).mpr (by omega : 1 * b ≤ n + b - 1)
    omega
  · intro h
    subst h
    exact Nat.div_eq_of_lt (by omega)

theorem ceilDiv_pos_succ (b : Nat) (hb : 0 < b) (n : Nat) (hn : 0 < n) :
    ceilDiv n b = ceilDiv (n - b) b + 1 := by
  unfold ceilDiv
  rcases Nat.lt_or_ge b n with h | h
  · have e1 : n + b - 1 = (n - 1) + b := by omega
    have e2 : n - b + b - 1 = (n - b - 1) + b := by omega
    have e3 : n - 1 = (n - b - 1) + b := by omega
    rw [e1, Nat.add_div_right _ hb, e3, Nat.add_div_right _ hb, e2, Nat.add_div_right _ hb]
  · have e1 : n - b = 0 := by omega
    rw [e1]
    have r0 : (0 + b - 1) / b = 0 := Nat.div_eq_of_lt (by omega)
    have r1 : (n + b - 1) / b = 1 := Nat.div_eq_of_lt_le (by omega) (by omega)
    omega

theorem pyRangeGo_eq_range' (stop step : Nat) (hs : 0 < step) :
    ∀ (fuel start : Nat), stop - start ≤ fuel →
      pyRangeGo stop step start fuel = List.range' start (ceilDiv (stop - start) step) step := by
  intro fuel
  induction fuel with
  | zero =>
    intro start h
    have h0 : stop - start = 0 := by omega
    rw [pyRangeGo, h0, (ceilDiv_eq_zero_iff step hs 0).mpr rfl, List.range'_zero]
  | succ fuel ih =>
    intro start h
    by_cases hc : start < stop
    · rw [pyRangeGo, if_pos hc, ih (start + step) (by omega)]
      have hk : ceilDiv (stop - start) step = ceilDiv (stop - (start + step)) step + 1 := by
        have := ceilDiv_pos_succ step hs (stop - start) (by omega)
        have e : stop - start - step = stop - (start + step) := by omega
        rw [e] at this
        exact this
      rw [hk, List.range'_succ]
    · rw [pyRangeGo, if_neg hc]
      have h0 : stop - start = 0 := by omega
      rw [h0, (ceilDiv_eq_zero_iff step hs 0).mpr rfl, List.range'_zero]

theorem pyRange_eq_range' (step : Nat) (hs : 0 < step) (start stop : Nat) :
    pyRange start stop step = List.range' start (ceilDiv (stop - start) step) step := by
  rw [pyRange, if_pos hs]
  exact pyRangeGo_eq_range' stop step hs (stop - start) start (Nat.le_refl _)

theorem slice_take_batch (l : List α) (s b : Nat) :
    (l.drop s).take (min (s + b) l.length - s) = (l.drop s).take b := by
  rcases Nat.le_total (s + b) l.length with h | h
  · have e : min (s + b) l.length - s = b := by omega
    rw [e]
  · have hm : min (s + b) l.length = l.length := by omega
    rw [hm]
    have hlen : (l.drop s).length = l.length - s := List.length_drop s l
    rw [List.take_of_length_le (by omega), List.take_of_length_le (by omega)]

theorem join_chunks (b : Nat) (hb : 0 < b) :
    ∀ (k : Nat) (l : List α), k = ceilDiv l.length b →
      ((List.range' 0 k b).map (fun s => (l.drop s).take b)).flatten = l := by
  intro k
  induction k with
  | zero =>
    intro l hk
    have h0 : l.length = 0 := (ceilDiv_eq_zero_iff b hb l.length).mp hk.symm
    have : l = [] := List.length_eq_zero.mp h0
    subst this
    simp
  | succ k ih =>
    intro l hk
    have hL : 0 < l.length := by
      by_contra h
      have h0 : l.length = 0 := by omega
      rw [h0, (ceilDiv_eq_zero_iff b hb 0).mpr rfl] at hk
      omega
    rw [List.range'_succ, List.map_cons, List.flatten_cons, List.drop_zero, Nat.zero_add]
    have hmap : (List.range' b k b).map (fun s => (l.drop s).take b)
        = (List.range' 0 k b).map (fun s => ((l.drop b).drop s).take b) := by
      have h1 : List.range' b k b = (List.range' 0 k b).map (b + ·) := by
        rw [List.map_add_range', Nat.add_zero]
      rw [h1, List.map_map]
      apply List.map_congr_left
      intro a _
      simp only [Function.comp]
      rw [List.drop_drop]
    rw [hmap, ih (l.drop b) ?_, List.take_append_drop]
    have e : (l.drop b).length = l.length - b := List.length_drop b l
    rw [e]
    have := ceilDiv_pos_succ b hb l.length hL
    omega

theorem batch_qs_some_eq (l : List α) (b : Nat) (hb : 0 < b) :
    batch_qs l (some b) = (List.range' 0 (ceilDiv l.length b) b).map (batchOf l b) := by
  show (pyRange 0 l.length b).map _ = _
  rw [pyRange_eq_range' b hb 0 l.length, Nat.sub_zero]
  rfl

/-! ### Helper lemmas about the export loop -/

theorem exportLoop_cons_skip (cfg : ExporterCfg) (resolve : String → FieldBinding α)
    (sink : Nat → List Row → Except ε (List RowError)) (pull : Datetime)
    (b : Batch α) (rest : List (Batch α)) (acc : List RowError)
    (hd : (process_queryset cfg resolve b.slice pull).isEmpty = true) :
    exportLoop cfg resolve sink pull (b :: rest) acc
      = exportLoop cfg resolve sink pull rest acc := by
  rw [exportLoop, if_pos hd]

theorem exportLoop_cons_rowErrors (cfg : ExporterCfg) (resolve : String → FieldBinding α)
    (sink : Nat → List Row → Except ε (List RowError)) (pull : Datetime)
    (b : Batch α) (rest : List (Batch α)) (acc errs : List RowError)
    (hd : (process_queryset cfg resolve b.slice pull).isEmpty = false)
    (hs : sink defaultRetryDeadline (process_queryset cfg resolve b.slice pull)
      = Except.ok errs) :
    exportLoop cfg resolve sink pull (b :: rest) acc
      = exportLoop cfg resolve sink pull rest
          (acc ++ errs.map (fun r => ⟨r.index + b.start, r.errors⟩)) := by
  rw [exportLoop, if_neg (by simp [hd])]
  simp only [push_to_bigquery_default, push_to_bigquery, hs]
  by_cases he : errs.isEmpty
  · have h0 : errs = [] := List.isEmpty_iff.mp he
    subst h0
    simp
  · rw [if_neg (by simp [he])]

theorem exportLoop_cons_transportError (cfg : ExporterCfg) (resolve : String → FieldBinding α)
    (sink : Nat → List Row → Except ε (List RowError)) (pull : Datetime)
    (b : Batch α) (rest : List (Batch α)) (acc : List RowError) (e : ε)
    (hd : (process_queryset cfg resolve b.slice pull).isEmpty = false)
    (hs : sink defaultRetryDeadline (process_queryset cfg resolve b.slice pull)
      = Except.error e) :
    exportLoop cfg resolve sink pull (b :: rest) acc = Except.error e := by
  rw [exportLoop, if_neg (by simp [hd])]
  simp only [push_to_bigquery_default, push_to_bigquery, hs]

theorem exportLoop_ok_eq (ε : Type) (cfg : ExporterCfg) (resolve : String → FieldBinding α)
    (f : List Row → List RowError) (pull : Datetime) :
    ∀ (batches : List (Batch α)) (acc : List RowError),
      exportLoop cfg resolve (fun _ rows => (Except.ok (f rows) : Except ε (List RowError)))
          pull batches acc
        = Except.ok (acc ++ (batches.map (fun b =>
            let data := process_queryset cfg resolve b.slice pull
            if data.isEmpty then []
            else (f data).map (fun r => ⟨r.index + b.start, r.errors⟩))).flatten) := by
  intro batches
  induction batches with
  | nil =>
    intro acc
    simp [exportLoop]
  | cons b rest ih =>
    intro acc
    by_cases hd : (process_queryset cfg resolve b.slice pull).isEmpty
    · rw [exportLoop_cons_skip cfg resolve _ pull b rest acc hd, ih]
      simp [hd]
    · rw [exportLoop_cons_rowErrors cfg resolve _ pull b rest acc
        (f (process_queryset cfg resolve b.slice pull)) (by simp [hd]) rfl, ih]
      simp only [List.map_cons, List.flatten_cons, List.append_assoc]
      rw [if_neg hd]

theorem firstNotInTable_eq_none_iff (fields table_fields : List String) :
    firstNotInTable fields table_fields = none ↔ ∀ f ∈ fields, f ∈ table_fields := by
  induction fields with
  | nil => simp [firstNotInTable]
  | cons f rest ih =>
    by_cases h : f ∈ table_fields
    · simp [firstNotInTable, h, ih]
    · simp [firstNotInTable, h]

/-! ### The claims -/

/-- C1 (code_bug): the spec says the sanitizer turns every datetime into its
UTC-normalised `YYYY-MM-DD HH:MM:SS` string.  `handle_datetime_value` indeed
computes exactly that string (naive values pass through unshifted, aware
values are converted to UTC first), but `_sanitize_value` discards its result
— the `return` is missing at `base.py:245` — so sanitizing any datetime
yields Python `None` instead of the formatted string. -/
theorem sanitize_value_datetime_bug :
    (∀ (rne : Bool) (dt : Datetime),
      sanitize_value rne (Value.vDatetime dt) = Value.vNull)
    ∧ handle_datetime_value ⟨2023, 1, 1, 12, 0, 0, none⟩ = "2023-01-01 12:00:00"
    ∧ handle_datetime_value ⟨2023, 1, 1, 12, 0, 0, some 120⟩ = "2023-01-01 10:00:00"
    ∧ Value.vNull ≠ Value.vStr ("2023-01-01 12:00:00") :=
  ⟨fun _ _ => rfl, by decide, by decide, by decide⟩

/-- C2 (code_bug): the spec (and the repository's own tests and
`constants.BQ_TYPE_DEFAULTS`) say a null on e.g. an INTEGER column becomes
`0` when `replace_nulls_with_empty` is set, with the default resolved from
the sink's column type.  The shipped `_sanitize_value` takes no field
argument at all and returns `''` for every null when the flag is set
(`None` when it is not), ignoring `BQ_TYPE_DEFAULTS` entirely. -/
theorem sanitize_value_null_default_bug :
    sanitize_value true Value.vNull = Value.vStr ("")
    ∧ sanitize_value false Value.vNull = Value.vNull
    ∧ bqTypeDefault ("INTEGER") = some (Value.vInt 0)
    ∧ bqTypeDefault ("BOOLEAN") = some (Value.vBool false)
    ∧ bqTypeDefault ("JSON") = some (Value.vStr ("\x7b\x7d"))
    ∧ Value.vStr ("") ≠ Value.vInt 0 :=
  ⟨rfl, rfl, by decide, by decide, by decide, by decide⟩

/-- C4 counterexample: with the unbounded (`None`) sentinel, batching an
empty source yields ONE batch `(0, 0, 0, [])`, not zero batches as the claim
states for every batch size. -/
theorem batch_qs_none_empty_counterexample :
    batch_qs ([] : List Nat) none = [⟨0, 0, 0, []⟩]
    ∧ (batch_qs ([] : List Nat) none).length = 1 :=
  ⟨rfl, rfl⟩

/-- C4 (amended): for every positive batch size, batching an empty source
yields zero batches; the `None` sentinel instead always yields exactly one
batch `(0, total, total, source)`, even when the source is empty. -/
theorem batch_qs_empty_amended (α : Type) (b : Nat) (hb : 0 < b) :
    batch_qs ([] : List α) (some b) = []
    ∧ ∀ (l : List α), batch_qs l none = [⟨0, l.length, l.length, l⟩] := by
  constructor
  · show (pyRange 0 ([] : List α).length b).map _ = []
    rw [pyRange_eq_range' b hb 0 ([] : List α).length]
    have h0 : ceilDiv (([] : List α).length - 0) b = 0 :=
      (ceilDiv_eq_zero_iff b hb _).mpr rfl
    rw [h0, List.range'_zero, List.map_nil]
  · intro l
    rfl

theorem batch_qs_empty_amended_witness :
    0 < 3
    ∧ (batch_qs ([] : List Nat) (some 3) = []
      ∧ ∀ (l : List Nat), batch_qs l none = [⟨0, l.length, l.length, l⟩]) :=
  ⟨by decide, batch_qs_empty_amended Nat 3 (by decide)⟩

/-- C9 counterexample: the per-push retry deadline defaults to 600 seconds
(ten minutes) at `base.py:204`, not the five minutes (300 seconds) the spec
states — a deadline-sensitive sink observes the difference. -/
theorem retry_deadline_counterexample :
    defaultRetryDeadline = 600
    ∧ defaultRetryDeadline ≠ 300
    ∧ push_to_bigquery_default
        (fun d _ => if d = 300 then (Except.ok [] : Except Unit (List RowError))
                    else Except.error ()) []
      ≠ push_to_bigquery
        (fun d _ => if d = 300 then (Except.ok [] : Except Unit (List RowError))
                    else Except.error ()) [] 300 :=
  ⟨rfl, by decide, fun h => by
    have h' : (Except.error () : Except Unit (Option (List RowError))) = Except.ok none := h
    exact Except.noConfusion h'⟩

/-- C9 (amended): the per-batch sink push uses a configurable retry deadline
whose default value is 600 seconds (ten minutes): `_push_to_bigquery` called
without a deadline is `_push_to_bigquery` at 600, and the export loop always
invokes the sink at that default. -/
theorem retry_deadline_amended (α ε : Type) (cfg : ExporterCfg)
    (resolve : String → FieldBinding α)
    (sink : Nat → List Row → Except ε (List RowError)) (pull : Datetime) :
    defaultRetryDeadline = 600
    ∧ (∀ (data : List Row),
        push_to_bigquery_default sink data = push_to_bigquery sink data 600)
    ∧ (∀ (batches : List (Batch α)) (acc : List RowError),
        exportLoop cfg resolve sink pull batches acc
          = exportLoop cfg resolve (fun _ rows => sink 600 rows) pull batches acc) := by
  refine ⟨rfl, fun _ => rfl, ?_⟩
  intro batches
  induction batches with
  | nil =>
    intro acc
    rfl
  | cons b rest ih =>
    intro acc
    have hp : push_to_bigquery_default (fun _ rows => sink 600 rows)
        (process_queryset cfg resolve b.slice pull)
        = push_to_bigquery_default sink (process_queryset cfg resolve b.slice pull) := rfl
    rw [exportLoop, exportLoop, hp]
    by_cases hd : (process_queryset cfg resolve b.slice pull).isEmpty
    · rw [if_pos hd, if_pos hd, ih]
    · rw [if_neg hd, if_neg hd]
      rcases hps : push_to_bigquery_default sink (process_queryset cfg resolve b.slice pull)
        with e | o
      · rfl
      · rcases o with _ | errs
        · exact ih acc
        · exact ih _

/-- C3: for every source and every positive batch size, `batch_qs` yields
exactly `ceil(total / batch_size)` batches, their start offsets are strictly
increasing, their slices concatenate back to the original sequence (no gaps,
no overlaps), and every batch but possibly the last spans exactly
`batch_size` records. -/
theorem batch_qs_covers (α : Type) (l : List α) (b : Nat) (hb : 0 < b) :
    (batch_qs l (some b)).length = ceilDiv l.length b
    ∧ ((batch_qs l (some b)).map Batch.start).Pairwise (· < ·)
    ∧ ((batch_qs l (some b)).map Batch.slice).flatten = l
    ∧ (∀ (i : Nat) (hi : i + 1 < (batch_qs l (some b)).length),
        ((batch_qs l (some b)).get ⟨i, Nat.lt_of_succ_lt hi⟩).stop
          - ((batch_qs l (some b)).get ⟨i, Nat.lt_of_succ_lt hi⟩).start = b) := by
  have hbq := batch_qs_some_eq l b hb
  have hlen : (batch_qs l (some b)).length = ceilDiv l.length b := by
    rw [hbq, List.length_map, List.length_range']
  refine ⟨hlen, ?_, ?_, ?_⟩
  · rw [hbq]
    simp only [List.pairwise_map]
    exact (List.pairwise_lt_range' 0 (ceilDiv l.length b) b hb).imp (fun hab => hab)
  · rw [hbq, List.map_map]
    have hs : (List.range' 0 (ceilDiv l.length b) b).map (Batch.slice ∘ batchOf l b)
        = (List.range' 0 (ceilDiv l.length b) b).map (fun s => (l.drop s).take b) :=
      List.map_congr_left (fun s _ => slice_take_batch l s b)
    rw [hs]
    exact join_chunks b hb (ceilDiv l.length b) l rfl
  · intro i hi
    have hi2 : i + 1 < ceilDiv l.length b := by rw [hlen] at hi; exact hi
    have hgl : i < (List.range' 0 (ceilDiv l.length b) b).length := by
      rw [List.length_range']
      omega
    have hg : (batch_qs l (some b)).get ⟨i, Nat.lt_of_succ_lt hi⟩
        = batchOf l b (0 + b * i) := by
      rw [List.get_eq_getElem, List.getElem_of_eq hbq, List.getElem_map,
        List.getElem_range']
    rw [hg]
    show min (0 + b * i + b) l.length - (0 + b * i) = b
    have hle : b * i + b ≤ l.length := by
      have h3 := (Nat.le_div_iff_mul_le hb).mp (show i + 2 ≤ (l.length + b - 1) / b by
        unfold ceilDiv at hi2
        omega)
      have h4 : (i + 2) * b = b * i + b + b := by ring
      omega
    omega

theorem batch_qs_covers_witness :
    0 < 2
    ∧ (batch_qs ([10, 20, 30, 40, 50] : List Nat) (some 2)).length = ceilDiv 5 2
    ∧ ((batch_qs ([10, 20, 30, 40, 50] : List Nat) (some 2)).map Batch.slice).flatten
        = [10, 20, 30, 40, 50] :=
  ⟨by decide, (batch_qs_covers Nat [10, 20, 30, 40, 50] 2 (by decide)).1,
    (batch_qs_covers Nat [10, 20, 30, 40, 50] 2 (by decide)).2.2.1⟩

/-- C5: when the sink reports only per-row errors (no transport failure),
every surfaced error is the sink's error with its index shifted by the start
offset of the batch that produced it, so the returned indices are relative to
the full record set; in particular, in a 5-record export with batch size 3, a
sink error at index 0 of the second batch (start 3) surfaces as index 3. -/
theorem export_reindexes_row_errors (α ε : Type) (cfg : ExporterCfg)
    (resolve : String → FieldBinding α) (f : List Row → List RowError)
    (pull : Datetime) (batches : List (Batch α)) :
    exportLoop cfg resolve
        (fun _ rows => (Except.ok (f rows) : Except ε (List RowError))) pull batches []
      = Except.ok ((batches.map (fun b =>
          let data := process_queryset cfg resolve b.slice pull
          if data.isEmpty then []
          else (f data).map (fun r => ⟨r.index + b.start, r.errors⟩))).flatten)
    ∧ export' ⟨["f"], some 3, false, false, ("pull_date")⟩
        ⟨([1, 2, 3, 4, 5] : List Int), true⟩
        (fun _ => FieldBinding.attr (fun n => Value.vInt n))
        ⟨2023, 1, 15, 0, 0, 0, none⟩
        (fun _ rows => (Except.ok (if rows.length = 2 then [⟨0, ("boom")⟩] else [])
          : Except Unit (List RowError)))
        PullDateArg.none QuerysetArg.none
      = Except.ok [⟨3, ("boom")⟩] := by
  constructor
  · have h := exportLoop_ok_eq ε cfg resolve f pull batches []
    simpa using h
  · exact rfl

/-- C6: a non-empty processed batch whose push returns per-row errors does
not raise — the loop continues with the remaining batches, accumulating the
re-indexed errors as data; a transport-level sink failure is re-raised and
aborts all remaining batches. -/
theorem export_row_vs_transport_policy (α ε : Type) (cfg : ExporterCfg)
    (resolve : String → FieldBinding α)
    (sink : Nat → List Row → Except ε (List RowError)) (pull : Datetime)
    (b : Batch α) (rest : List (Batch α)) (acc : List RowError)
    (hd : (process_queryset cfg resolve b.slice pull).isEmpty = false) :
    (∀ (errs : List RowError),
      sink defaultRetryDeadline (process_queryset cfg resolve b.slice pull)
          = Except.ok errs →
        exportLoop cfg resolve sink pull (b :: rest) acc
          = exportLoop cfg resolve sink pull rest
              (acc ++ errs.map (fun r => ⟨r.index + b.start, r.errors⟩)))
    ∧ (∀ (e : ε),
      sink defaultRetryDeadline (process_queryset cfg resolve b.slice pull)
          = Except.error e →
        exportLoop cfg resolve sink pull (b :: rest) acc = Except.error e) :=
  ⟨fun errs hs => exportLoop_cons_rowErrors cfg resolve sink pull b rest acc errs hd hs,
    fun e hs => exportLoop_cons_transportError cfg resolve sink pull b rest acc e hd hs⟩

theorem export_row_vs_transport_policy_witness :
    exportLoop ⟨["f"], some 3, false, false, ("pull_date")⟩
        (fun _ => FieldBinding.attr (fun n => Value.vInt n))
        (fun _ _ => (Except.ok [⟨0, ("x")⟩] : Except Unit (List RowError)))
        ⟨2023, 1, 1, 0, 0, 0, none⟩ [⟨3, 5, 5, [4, 5]⟩] []
      = Except.ok [⟨3, ("x")⟩]
    ∧ exportLoop ⟨["f"], some 3, false, false, ("pull_date")⟩
        (fun _ => FieldBinding.attr (fun n => Value.vInt n))
        (fun _ _ => (Except.error () : Except Unit (List RowError)))
        ⟨2023, 1, 1, 0, 0, 0, none⟩ [⟨3, 5, 5, [4, 5]⟩, ⟨6, 8, 8, [7, 8]⟩] []
      = Except.error () := by
  constructor
  · rw [(export_row_vs_transport_policy Int Unit ⟨["f"], some 3, false, false, ("pull_date")⟩
      (fun _ => FieldBinding.attr (fun n => Value.vInt n))
      (fun _ _ => (Except.ok [⟨0, ("x")⟩] : Except Unit (List RowError)))
      ⟨2023, 1, 1, 0, 0, 0, none⟩ ⟨3, 5, 5, [4, 5]⟩ [] [] (by decide)).1
      [⟨0, ("x")⟩] rfl]
    exact rfl
  · exact (export_row_vs_transport_policy Int Unit ⟨["f"], some 3, false, false, ("pull_date")⟩
      (fun _ => FieldBinding.attr (fun n => Value.vInt n))
      (fun _ _ => (Except.error () : Except Unit (List RowError)))
      ⟨2023, 1, 1, 0, 0, 0, none⟩ ⟨3, 5, 5, [4, 5]⟩ [⟨6, 8, 8, [7, 8]⟩] [] (by decide)).2
      () rfl

/-- C7 counterexample: a supplied `queryset` that is falsy but not a
`QuerySet` — here an empty `list` — is NOT rejected: `export` silently
replaces it with the default queryset and completes, returning `Except.ok
[]` instead of raising the argument error the claim demands for every
non-conforming supplied record source. -/
theorem export_falsy_queryset_counterexample :
    export' ⟨["f"], some 3, false, false, ("pull_date")⟩ ⟨([] : List Int), true⟩
        (fun _ => FieldBinding.attr (fun n => Value.vInt n))
        ⟨2023, 1, 1, 0, 0, 0, none⟩
        (fun _ _ => (Except.ok [] : Except Unit (List RowError)))
        PullDateArg.none (QuerysetArg.other false ("list"))
      = Except.ok [] := by
  exact rfl

/-- C7 (amended): `export` validates its arguments before any sink
interaction — for every sink, a supplied non-datetime `pull_date` raises
`TypeError` (checked first), and a supplied TRUTHY non-`QuerySet` `queryset`
raises `TypeError`; a falsy supplied `queryset`, however, is silently
replaced by the default queryset rather than rejected (see C10). -/
theorem export_arg_validation_amended (α ε : Type) (cfg : ExporterCfg)
    (defaultQs : Queryset α) (resolve : String → FieldBinding α) (now : Datetime)
    (sink : Nat → List Row → Except ε (List RowError)) (t : Bool)
    (ty ty2 : String) (qsArg : QuerysetArg α) (d : Datetime) :
    export' cfg defaultQs resolve now sink (PullDateArg.other t ty) qsArg
      = Except.error (ExportError.typeError
          (("Expected a datetime.datetime object for pull_date, but got ")
            ++ ty ++ (" instead.")))
    ∧ export' cfg defaultQs resolve now sink PullDateArg.none
        (QuerysetArg.other true ty2)
      = Except.error (ExportError.typeError
          (("Expected a Django QuerySet, but got ") ++ ty2 ++ (" instead.")))
    ∧ export' cfg defaultQs resolve now sink (PullDateArg.dt d)
        (QuerysetArg.other true ty2)
      = Except.error (ExportError.typeError
          (("Expected a Django QuerySet, but got ") ++ ty2 ++ (" instead."))) :=
  ⟨rfl, rfl, rfl⟩

/-- C8 counterexample: `_validate_fields_against_table` never checks the
pull-date field name: with `include_pull_date` set and a table whose columns
do not contain `pull_date`, validation still succeeds (both with empty and
with fully-matching declared fields), where the claim demands a
`ConfigurationError` naming the missing pull-date field. -/
theorem validate_pull_date_counterexample :
    validate_fields_against_table ⟨[], some 1000, false, true, ("pull_date")⟩ [("a")]
      = Except.ok ()
    ∧ validate_fields_against_table ⟨[("a")], some 1000, false, true, ("pull_date")⟩ [("a")]
      = Except.ok ()
    ∧ ("pull_date") ∉ [("a")] :=
  ⟨rfl, rfl, by decide⟩

/-- C8 (amended): at job construction every declared field name must appear
in the sink's fetched column set — validation succeeds exactly when all
declared fields are table columns, it is entirely independent of the
pull-date configuration, and a violation raises the validation error naming
the first offending field. -/
theorem validate_fields_amended (cfg : ExporterCfg) (table_fields : List String) :
    (validate_fields_against_table cfg table_fields = Except.ok ()
      ↔ ∀ f ∈ cfg.fields, f ∈ table_fields)
    ∧ (∀ (b : Bool) (s : String),
        validate_fields_against_table
            ⟨cfg.fields, cfg.batch, cfg.replace_nulls_with_empty, b, s⟩ table_fields
          = validate_fields_against_table cfg table_fields)
    ∧ (∀ (f : String), firstNotInTable cfg.fields table_fields = some f →
        validate_fields_against_table cfg table_fields
          = Except.error (ValidationError.fieldNotInTable f)) := by
  refine ⟨?_, fun _ _ => rfl, ?_⟩
  · rw [← firstNotInTable_eq_none_iff]
    unfold validate_fields_against_table
    rcases h : firstNotInTable cfg.fields table_fields with _ | f
    · simp
    · simp
  · intro f hf
    unfold validate_fields_against_table
    rw [hf]

theorem validate_fields_amended_witness :
    validate_fields_against_table ⟨[("a"), ("b")], none, false, false, ("p")⟩ [("a")]
      = Except.error (ValidationError.fieldNotInTable ("b")) :=
  (validate_fields_amended ⟨[("a"), ("b")], none, false, false, ("p")⟩ [("a")]).2.2
    ("b") (by decide)

/-- C10: a supplied `queryset` argument whose Python truth value is false —
an empty queryset, an empty list, any falsy value — is silently replaced by
the default queryset from `define_queryset()` before any validation runs, so
the whole export behaves exactly as if no queryset had been supplied: the
empty source is never exported as empty, and a falsy non-queryset is never
type-rejected. -/
theorem falsy_queryset_replaced (α ε : Type) (cfg : ExporterCfg)
    (defaultQs : Queryset α) (resolve : String → FieldBinding α) (now : Datetime)
    (sink : Nat → List Row → Except ε (List RowError)) (pull_date : PullDateArg)
    (queryset : QuerysetArg α) (h : queryset.truthy = false) :
    export' cfg defaultQs resolve now sink pull_date queryset
      = export' cfg defaultQs resolve now sink pull_date QuerysetArg.none := by
  unfold export'
  rw [h]
  exact rfl

theorem falsy_queryset_replaced_witness :
    (QuerysetArg.other false ("list") : QuerysetArg Int).truthy = false
    ∧ export' ⟨["f"], some 3, false, false, ("pull_date")⟩ ⟨([1, 2] : List Int), true⟩
        (fun _ => FieldBinding.attr (fun n => Value.vInt n))
        ⟨2023, 1, 1, 0, 0, 0, none⟩
        (fun _ _ => (Except.ok [] : Except Unit (List RowError)))
        PullDateArg.none (QuerysetArg.other false ("list"))
      = export' ⟨["f"], some 3, false, false, ("pull_date")⟩ ⟨([1, 2] : List Int), true⟩
        (fun _ => FieldBinding.attr (fun n => Value.vInt n))
        ⟨2023, 1, 1, 0, 0, 0, none⟩
        (fun _ _ => (Except.ok [] : Except Unit (List RowError)))
        PullDateArg.none QuerysetArg.none :=
  ⟨by decide,
    falsy_queryset_replaced Int Unit ⟨["f"], some 3, false, false, ("pull_date")⟩
      ⟨([1, 2] : List Int), true⟩ (fun _ => FieldBinding.attr (fun n => Value.vInt n))
      ⟨2023, 1, 1, 0, 0, 0, none⟩
      (fun _ _ => (Except.ok [] : Except Unit (List RowError)))
      PullDateArg.none (QuerysetArg.other false ("list")) (by decide)⟩

end BQExporter
